import Mathlib

/-!
Verification of the Birbank Business telesales call-flow controller.

The repository ships the call flow as a scripted policy embedded in
`src/app/backend/app.py` (the `rtmt.system_message` block).  The executable
controller itself is not present in the repository, so the controller is
modelled here from the specification, staying faithful to the wording of the
scripted policy: the rate table, phone rules, identity data and message texts
below are transcribed from that script.
-/

namespace Birbank

/-! ## Rate table (script section "Loan Product Details") -/

/-- Error raised by the rate table on a term outside the four offered options. -/
inductive RateError
  | invalidTerm
  deriving DecidableEq, Repr

/-- The only loan terms on offer: 6, 12, 24 or 36 months. -/
def termOptions : List Nat := [6, 12, 24, 36]

/-- Modelled from the spec: `rateFor(term) -> rate | fails with InvalidTerm`.
The repository has no executable rate lookup; the mapping
6↦19, 12↦21, 24↦23, 36↦25 (percent, annual) is transcribed from the
"Interest Rates by Term" table of the script in `src/app/backend/app.py`. -/
def rateFor (t : Nat) : Except RateError Nat :=
  if t = 6 then .ok 19
  else if t = 12 then .ok 21
  else if t = 24 then .ok 23
  else if t = 36 then .ok 25
  else .error .invalidTerm

/-- Rate as a plain number for message rendering, defaulting to 0 outside the
table (the controller never presents a rate for an invalid term). -/
def rateD (t : Nat) : Nat := (rateFor t).toOption.getD 0

/-- Commission rate in percent: fixed 1% ("Commission Fee: 1% (deducted
upfront from loan amount)"). -/
def commissionRatePct : Nat := 1

/-- Commission fee on a principal, 1% of the principal. -/
def commissionFee (p : Nat) : Nat := p * commissionRatePct / 100

/-- Amount actually disbursed: principal minus the upfront commission. -/
def disbursedAmount (p : Nat) : Nat := p - commissionFee p

/-! ## Illustrative payment estimator (script Q&A answer on total cost) -/

/-- Approximate monthly payment quoted for the 50,000 manat / 36 month / 25%
offer ("aylıq ödənişiniz təxminən 1,800 manat"). -/
def estMonthlyPayment : Nat := 1800

/-- Approximate total repayment quoted for the same offer ("ümumi məbləğ isə
faizlə birlikdə təxminən 64,800 manat"). -/
def estTotalRepayment : Nat := 64800

/-! ## Phone validator (script section "Phone Number Validation") -/

/-- Valid Azerbaijani mobile prefixes: the script whitelist
"Must start with: 050, 055, 010, 070, 077, or 099". -/
def phoneWhitelist : List String := ["050", "055", "010", "070", "077", "099"]

/-- Result of validating one candidate phone number. -/
inductive PhoneCheck
  | valid
  | invalid (reason : String)
  deriving DecidableEq, Repr

/-- Modelled from the spec: `validate(raw) -> Valid | Invalid(reason)`.
The repository has no executable validator; the rule is transcribed from the
script: exactly 10 digits, and the 3-digit prefix in the whitelist. -/
def validate (p : String) : PhoneCheck :=
  if p.toList.length = 10 ∧ p.toList.all Char.isDigit then
    if String.mk (p.toList.take 3) ∈ phoneWhitelist then .valid
    else .invalid "bad prefix"
  else .invalid "must be exactly 10 digits"

/-! ## Substring search (used only to state secrecy properties) -/

/-- `leadsWith pat l` is true when `pat` is an initial segment of `l`. -/
def leadsWith : List Char → List Char → Bool
  | [], _ => true
  | _ :: _, [] => false
  | a :: pat, b :: l => a == b && leadsWith pat l

/-- `occursIn pat l` is true when `pat` occurs contiguously inside `l`. -/
def occursIn (pat : List Char) : List Char → Bool
  | [] => leadsWith pat []
  | c :: rest => leadsWith pat (c :: rest) || occursIn pat rest

/-- `containsSub s pat` is true when the string `pat` occurs inside `s`. -/
def containsSub (s pat : String) : Bool := occursIn pat.toList s.toList

/-! ## Data model (spec §3), modelled from the spec -/

/-- Modelled from the spec: CustomerIdentity — full name plus the two secret
verification facts; the repository holds them only as script text. -/
structure CustomerIdentity where
  fullName : String
  fatherName : String
  birthDate : String
  deriving DecidableEq, Repr

/-- Modelled from the spec: LoanOffer — an (amount, term) pair; the interest
rate is always derived from the term via the rate table, never stored. -/
structure LoanOffer where
  amount : Nat
  term : Nat
  deriving DecidableEq, Repr

/-- Reason a call ended (spec §4.3 terminal states). -/
inductive EndReason
  | wrongNumber
  | identityRejected
  | declined
  | completed
  deriving DecidableEq, Repr

/-- Modelled from the spec: the conversation states of the call-flow
controller (spec §4.3); post-dispatch amendment is split into its collect /
first-confirm / second-confirm sub-steps. -/
inductive Phase
  | greeting
  | identityChallenge
  | identityVerified
  | offerPresented
  | sectorCollection
  | sectorConfirm
  | amountAcceptCheck
  | locationCollection
  | phoneCollection
  | phoneConfirm
  | finalConfirm
  | dispatched
  | amendCollect
  | amendConfirm1
  | amendConfirm2
  | closing
  | callEnded (r : EndReason)
  deriving DecidableEq, Repr

/-- Modelled from the spec: the classified customer intent handed to the
controller each turn; DATA-bearing intents carry their structured payload. -/
inductive Intent
  | affirm
  | deny
  | correction
  | question
  | identityData (father : Option String) (birth : Option String)
  | sectorData (sector sub : String)
  | locationData (city district : String)
  | phoneData (raw : String)
  | amountData (amount : Nat)
  | amountTermData (amount : Nat) (term : Nat)
  | other
  deriving DecidableEq, Repr

/-- Modelled from the spec: one outward system utterance per turn.  Fixed
script lines are `fixed`; data-bearing presentations carry their payload so
that the presented figures are part of the message itself. -/
inductive Msg
  | silence
  | fixed (text : String)
  | sectorEcho (sector sub : String)
  | phoneEcho (numbers : List String)
  | offerPresentation (amount term : Nat)
  | finalConfirmPresentation (amount term rate : Nat)
  | amendAsk (oldAmount : Nat)
  | amendEcho (newAmount : Nat)
  | dispatchNotice (amount : Nat)
  deriving DecidableEq, Repr

/-! Scripted fixed lines, transcribed from `rtmt.system_message`. -/

/-- Script step 1 greeting line. -/
def greetingMsg : String := "Salam! Bu Birbank Biznesdir. Azər Həsənzadə ilə danışıram?"

/-- Script wrong-number line, said on DENY at the greeting. -/
def wrongNumberMsg : String := "Üzr istəyirəm, yanlış nömrəyə zəng etmişəm. Zəngi bitirirəm. Gözəl gün arzulayıram!"

/-- Script step 2 security-verification prompt for both identity facts. -/
def identityPromptMsg : String := "Təşəkkür edirəm! Təhlükəsizlik məqsədilə kimlik təsdiqləməsi aparmalıyam. Lütfən ata adınızı və doğum tarixinizi söyləyin."

/-- Script prompt when the father name is still missing. -/
def askFatherMsg : String := "Ata adınızı da söyləyin"

/-- Script prompt when the birth date is still missing. -/
def askBirthMsg : String := "Doğum tarixinizi də söyləyin"

/-- Script line on identity mismatch; reveals nothing about the expected
values. -/
def identityRejectedMsg : String := "Üzr istəyirəm, təhlükəsizlik məqsədilə kimlik təsdiqlənmədi. Zəngi bitirirəm. Gözəl gün arzulayıram!"

/-- Script line on successful verification, asking for one more Bəli. -/
def identityVerifiedMsg : String := "Təşəkkür edirəm, kimlik təsdiqləndi. Sizin üçün əvvəlcədən təsdiqlənmiş biznes kredit təklifi var. Əgər bu təklif haqqında ətraflı məlumat almaq istəyirsinizsə, lütfən Bəli deyin."

/-- Script line on refusal after verification. -/
def declineMsg : String := "Başa düşdüm. Vaxtınıza görə təşəkkür edirəm. Gözəl gün arzulayıram!"

/-- Script transition to data collection. -/
def sectorPromptMsg : String := "Biznes sektorunuzu və alt-sektorunuzu deyə bilərsinizmi?"

/-- Script canned-answer placeholder for the Q&A table. -/
def qaAnswerMsg : String := "Cavab təqdim olunur; başqa sualınız var?"

/-- Script step 2 of detailed collection: city and district. -/
def locationPromptMsg : String := "İndi biznesinizin hansı şəhər və rayonda fəaliyyət göstərdiyini soruşa bilərəmmi?"

/-- Script step 3: ask for the two extra phone numbers. -/
def phonePromptMsg : String := "Son olaraq, əlaqə saxlaya biləcəyimiz iki əlavə telefon nömrəsi verə bilərsinizmi?"

/-- Script re-prompt with the specific phone format rule. -/
def invalidPhoneMsg : String := "Üzr istəyirəm, telefon nömrələri düzgün formatda deyil. Azərbaycan telefon nömrələri 10 rəqəmdən ibarət olmalı və 050, 055, 010, 070, 077 və ya 099 ilə başlamalıdır. Lütfən, iki düzgün telefon nömrəsi verin."

/-- Script re-prompt when only one number has been provided. -/
def needSecondPhoneMsg : String := "Mənə iki telefon nömrəsi lazımdır. Lütfən, ikinci telefon nömrəsini də verin."

/-- Script re-prompt when a submitted amount or term is outside the product
bounds. -/
def validationFailedMsg : String := "Üzr istəyirəm, bu məbləğ və ya müddət mövcud deyil. Məbləğ 1,000 və 50,000 manat arasında, müddət 6, 12, 24 və ya 36 ay olmalıdır."

/-- Script line asking for the second, final confirmation of a post-dispatch
amendment. -/
def amendFinalAskMsg : String := "Son dəfə kredit müraciətinizi təsdiqləyirsiniz? Bu çox vacibdir."

/-- Script closing question. -/
def closingAskMsg : String := "Başqa bir sualınız varmı?"

/-- Script final closing line. -/
def closingMsg : String := "Birbank Biznesi seçdiyiniz üçün təşəkkür edirəm. Sənədləri gün sonuna qədər təsdiqləməsəniz, kredit müraciətiniz ləğv ediləcək. Gözəl gün arzulayıram!"

/-- Render an outward message to the literal spoken text. -/
def render : Msg → String
  | .silence => ""
  | .fixed t => t
  | .sectorEcho s u => "Dediniz ki, sektorunuz " ++ s ++ ", alt-sektorunuz " ++ u ++ ". Düzgündür?"
  | .phoneEcho ns => "Aldığım telefon nömrələri: " ++ String.intercalate ", " ns ++ ". Düzgündür?"
  | .offerPresentation a t => "Sizin üçün əvvəlcədən təsdiqlənmiş kredit məbləği " ++ toString a ++ " manatdır, müddəti " ++ toString t ++ " aydır. Bu təklif haqqında hansı suallarınız var?"
  | .finalConfirmPresentation a t r => "SMS göndərməzdən əvvəl son dəfə təsdiqləyək: Sizin kredit məbləğiniz " ++ toString a ++ " manatdır, müddəti " ++ toString t ++ " aydır, faiz dərəcəsi " ++ toString r ++ " faizdir. Bu şərtlərlə kredit müraciətinizi təsdiqləyirsiniz? Əgər təsdiqləyirsinizsə Bəli deyin."
  | .amendAsk old => "Daha əvvəl " ++ toString old ++ " manat məbləğini seçmişdiniz. Yeni məbləğin nə olmasını istəyirsiniz?"
  | .amendEcho y => toString y ++ " manat məbləği ilə yeni məlumatları istifadə edərək davam edim?"
  | .dispatchNotice _ => "Əla! Sənədləriniz hazırdır. Qısa müddətdə SMS alacaqsınız."

/-- Modelled from the spec: CallSession — the mutable per-call record owned
by one controller instance. -/
structure CallSession where
  identity : CustomerIdentity
  offer : LoanOffer
  fatherGiven : Option String
  birthGiven : Option String
  sector : String
  subSector : String
  city : String
  district : String
  phones : List String
  verified : Bool
  confirmedVersion : Option LoanOffer
  dispatchCount : Nat
  pendingAmount : Option Nat
  phase : Phase
  deriving DecidableEq, Repr

/-- The fixed customer and offer constants embedded in the script: every call
session starts from this same record. -/
def initialSession : CallSession :=
  { identity := { fullName := "Azər Həsənzadə", fatherName := "Anar",
                  birthDate := "12 iyul 2001" }
    offer := { amount := 50000, term := 36 }
    fatherGiven := none, birthGiven := none
    sector := "", subSector := "", city := "", district := ""
    phones := [], verified := false, confirmedVersion := none
    dispatchCount := 0, pendingAmount := none, phase := .greeting }

/-- An amount/term pair is admissible when the amount is in the 1,000–50,000
manat product range and the term is one of the four options. -/
def offerAdmissible (a t : Nat) : Prop := 1000 ≤ a ∧ a ≤ 50000 ∧ t ∈ termOptions

instance (a t : Nat) : Decidable (offerAdmissible a t) := by
  unfold offerAdmissible; infer_instance

/-- Merge a newly supplied identity fact with the one already on file; fresh
data wins. -/
def mergeFact : Option String → Option String → Option String
  | some v, _ => some v
  | none, old => old

/-- Modelled from the spec: one turn of the call-flow controller (spec §4.3).
Given the session and a classified intent it returns the next session and the
outward utterance.  Transitions follow the script in
`src/app/backend/app.py` step by step. -/
def step (s : CallSession) (i : Intent) : CallSession × Msg :=
  match s.phase, i with
  | .greeting, .affirm => ({ s with phase := .identityChallenge }, .fixed identityPromptMsg)
  | .greeting, .deny => ({ s with phase := .callEnded .wrongNumber }, .fixed wrongNumberMsg)
  | .greeting, _ => (s, .fixed greetingMsg)
  | .identityChallenge, .identityData f b =>
    let fg := mergeFact f s.fatherGiven
    let bg := mergeFact b s.birthGiven
    match fg, bg with
    | none, _ => ({ s with fatherGiven := fg, birthGiven := bg }, .fixed askFatherMsg)
    | some _, none => ({ s with fatherGiven := fg, birthGiven := bg }, .fixed askBirthMsg)
    | some fv, some bv =>
      if fv = s.identity.fatherName ∧ bv = s.identity.birthDate then
        ({ s with fatherGiven := fg, birthGiven := bg, verified := true,
                  phase := .identityVerified }, .fixed identityVerifiedMsg)
      else
        ({ s with phase := .callEnded .identityRejected }, .fixed identityRejectedMsg)
  | .identityChallenge, _ => (s, .fixed identityPromptMsg)
  | .identityVerified, .affirm =>
    ({ s with phase := .offerPresented }, .offerPresentation s.offer.amount s.offer.term)
  | .identityVerified, .deny => ({ s with phase := .callEnded .declined }, .fixed declineMsg)
  | .identityVerified, _ => (s, .fixed identityVerifiedMsg)
  | .offerPresented, .affirm => ({ s with phase := .sectorCollection }, .fixed sectorPromptMsg)
  | .offerPresented, .deny => ({ s with phase := .callEnded .declined }, .fixed declineMsg)
  | .offerPresented, .question => (s, .fixed qaAnswerMsg)
  | .offerPresented, _ => (s, .offerPresentation s.offer.amount s.offer.term)
  | .sectorCollection, .sectorData x y =>
    ({ s with sector := x, subSector := y, phase := .sectorConfirm }, .sectorEcho x y)
  | .sectorCollection, _ => (s, .fixed sectorPromptMsg)
  | .sectorConfirm, .affirm =>
    ({ s with phase := .amountAcceptCheck }, .offerPresentation s.offer.amount s.offer.term)
  | .sectorConfirm, .correction => ({ s with phase := .sectorCollection }, .fixed sectorPromptMsg)
  | .sectorConfirm, .sectorData x y =>
    ({ s with sector := x, subSector := y }, .sectorEcho x y)
  | .sectorConfirm, _ => (s, .sectorEcho s.sector s.subSector)
  | .amountAcceptCheck, .affirm => ({ s with phase := .locationCollection }, .fixed locationPromptMsg)
  | .amountAcceptCheck, .amountTermData a t =>
    if offerAdmissible a t then
      ({ s with offer := { amount := a, term := t } }, .offerPresentation a t)
    else (s, .fixed validationFailedMsg)
  | .amountAcceptCheck, .amountData a =>
    if offerAdmissible a s.offer.term then
      ({ s with offer := { amount := a, term := s.offer.term } },
        .offerPresentation a s.offer.term)
    else (s, .fixed validationFailedMsg)
  | .amountAcceptCheck, _ => (s, .offerPresentation s.offer.amount s.offer.term)
  | .locationCollection, .locationData c d =>
    ({ s with city := c, district := d, phase := .phoneCollection }, .fixed phonePromptMsg)
  | .locationCollection, _ => (s, .fixed locationPromptMsg)
  | .phoneCollection, .phoneData r =>
    if validate r = .valid then
      if s.phones.length + 1 = 2 then
        ({ s with phones := s.phones ++ [r], phase := .phoneConfirm },
          .phoneEcho (s.phones ++ [r]))
      else ({ s with phones := s.phones ++ [r] }, .fixed needSecondPhoneMsg)
    else (s, .fixed invalidPhoneMsg)
  | .phoneCollection, _ => (s, .fixed phonePromptMsg)
  | .phoneConfirm, .affirm =>
    ({ s with phase := .finalConfirm },
      .finalConfirmPresentation s.offer.amount s.offer.term (rateD s.offer.term))
  | .phoneConfirm, .correction => ({ s with phones := [], phase := .phoneCollection }, .fixed phonePromptMsg)
  | .phoneConfirm, _ => (s, .phoneEcho s.phones)
  | .finalConfirm, .affirm =>
    ({ s with phase := .dispatched, dispatchCount := s.dispatchCount + 1,
              confirmedVersion := some s.offer }, .dispatchNotice s.offer.amount)
  | .finalConfirm, .amountTermData a t =>
    if offerAdmissible a t then
      ({ s with offer := { amount := a, term := t } },
        .finalConfirmPresentation a t (rateD t))
    else
      (s, .finalConfirmPresentation s.offer.amount s.offer.term (rateD s.offer.term))
  | .finalConfirm, _ =>
    (s, .finalConfirmPresentation s.offer.amount s.offer.term (rateD s.offer.term))
  | .dispatched, .correction => ({ s with phase := .amendCollect }, .amendAsk s.offer.amount)
  | .dispatched, _ => ({ s with phase := .closing }, .fixed closingAskMsg)
  | .amendCollect, .amountData a =>
    if offerAdmissible a s.offer.term then
      ({ s with pendingAmount := some a, phase := .amendConfirm1 }, .amendEcho a)
    else (s, .fixed validationFailedMsg)
  | .amendCollect, _ => (s, .amendAsk s.offer.amount)
  | .amendConfirm1, .affirm => ({ s with phase := .amendConfirm2 }, .fixed amendFinalAskMsg)
  | .amendConfirm1, .deny =>
    ({ s with pendingAmount := none, phase := .closing }, .fixed closingAskMsg)
  | .amendConfirm1, .correction => ({ s with phase := .amendCollect }, .amendAsk s.offer.amount)
  | .amendConfirm1, _ => (s, .amendEcho (s.pendingAmount.getD s.offer.amount))
  | .amendConfirm2, .affirm =>
    ({ s with offer := { amount := s.pendingAmount.getD s.offer.amount,
                         term := s.offer.term },
              pendingAmount := none, phase := .closing }, .fixed closingAskMsg)
  | .amendConfirm2, .deny =>
    ({ s with pendingAmount := none, phase := .closing }, .fixed closingAskMsg)
  | .amendConfirm2, _ => (s, .fixed amendFinalAskMsg)
  | .closing, .question => (s, .fixed qaAnswerMsg)
  | .closing, .affirm => (s, .fixed closingAskMsg)
  | .closing, _ => ({ s with phase := .callEnded .completed }, .fixed closingMsg)
  | .callEnded _, _ => (s, .silence)

/-- Run the controller over a whole list of classified intents. -/
def runList (s : CallSession) : List Intent → CallSession
  | [] => s
  | i :: rest => runList (step s i).1 rest

/-- The outward utterances produced while running a list of intents. -/
def runMsgs (s : CallSession) : List Intent → List Msg
  | [] => []
  | i :: rest => (step s i).2 :: runMsgs (step s i).1 rest

/-- Once a call has ended the controller is inert: state unchanged, silence. -/
theorem step_ended (s : CallSession) (r : EndReason) (i : Intent)
    (h : s.phase = .callEnded r) : step s i = (s, .silence) := by
  obtain ⟨id, off, fg, bg, sec, sub, ci, di, ph, ver, cv, dc, pa, phase⟩ := s
  subst h
  cases i <;> rfl

/-- After a call has ended, every later outward message is silence. -/
theorem runMsgs_ended (s : CallSession) (r : EndReason)
    (h : s.phase = .callEnded r) :
    ∀ l : List Intent, ∀ m ∈ runMsgs s l, m = Msg.silence := by
  intro l
  induction l generalizing s with
  | nil => intro m hm; simp [runMsgs] at hm
  | cons i rest ih =>
    intro m hm
    rw [runMsgs, step_ended s r i h] at hm
    rcases List.mem_cons.mp hm with hm | hm
    · exact hm
    · exact ih s h m hm

end Birbank

namespace Birbank

/-- Happy-path intents from the greeting up to the FINAL_CONFIRM gate. -/
def happyPrefix : List Intent :=
  [.affirm,
   .identityData (some "Anar") (some "12 iyul 2001"),
   .affirm,
   .affirm,
   .sectorData "Ticarət" "Pərakəndə satış",
   .affirm,
   .affirm,
   .locationData "Bakı" "Nəsimi",
   .phoneData "0501234567",
   .phoneData "0551234567",
   .affirm]

/-- The C1 scenario: two consecutive Bəli confirmations on the same
unchanged offer, plus one closing turn. -/
def doubleConfirmScenario : List Intent := happyPrefix ++ [.affirm, .affirm]

/-- The C3 scenario: amount changed 50000 → 20000 and term 36 → 12 at
AMOUNT_ACCEPT_CHECK, then on to the phone-confirmation gate. -/
def amendScenario : List Intent :=
  [.affirm,
   .identityData (some "Anar") (some "12 iyul 2001"),
   .affirm,
   .affirm,
   .sectorData "Ticarət" "Pərakəndə satış",
   .affirm,
   .amountTermData 20000 12,
   .affirm,
   .locationData "Bakı" "Nəsimi",
   .phoneData "0501234567",
   .phoneData "0551234567"]

end Birbank

/-- C3: amending amount/term at AMOUNT_ACCEPT_CHECK installs the new pair,
and every FINAL_CONFIRM presentation carries the rate recomputed from the
currently presented term (never a stale rate); in the concrete scenario
50000→20000 and 36→12 the gate presents rate 21, not 25. -/
theorem Birbank.C3_rate_recomputed :
    (∀ (s : Birbank.CallSession) (a t : Nat), s.phase = .amountAcceptCheck →
      Birbank.offerAdmissible a t →
      (Birbank.step s (.amountTermData a t)).1.offer = ⟨a, t⟩ ∧
      (Birbank.step s (.amountTermData a t)).1.phase = .amountAcceptCheck) ∧
    (∀ (s : Birbank.CallSession) (i : Birbank.Intent) (a t r : Nat),
      (Birbank.step s i).2 = .finalConfirmPresentation a t r →
      r = Birbank.rateD t ∧ (Birbank.step s i).1.offer = ⟨a, t⟩) ∧
    ((Birbank.step (Birbank.runList Birbank.initialSession Birbank.amendScenario)
        .affirm).2 = .finalConfirmPresentation 20000 12 21 ∧
     Birbank.rateD 12 = 21 ∧ Birbank.rateD 12 ≠ 25) := by
  refine ⟨?_, ?_, by decide⟩
  · intro s a t h hadm
    simp only [Birbank.step, h]
    rw [if_pos hadm]
    exact ⟨rfl, rfl⟩
  · intro s i a t r h
    obtain ⟨id, ⟨oa, ot⟩, fg, bg, sec, sub, ci, di, ph, ver, cv, dc, pa, phase⟩ := s
    cases phase <;> cases i <;> simp only [Birbank.step] at h ⊢ <;>
      (repeat' split at h) <;> simp_all <;>
      (obtain ⟨rfl, rfl, rfl⟩ := h; rfl)

/-- Witness for C3 at the concrete amendment state of the scenario. -/
theorem Birbank.C3_rate_recomputed_witness :
    (Birbank.step (Birbank.runList Birbank.initialSession
        (Birbank.amendScenario.take 6)) (.amountTermData 20000 12)).1.offer =
      ⟨20000, 12⟩ :=
  (Birbank.C3_rate_recomputed.1
    (Birbank.runList Birbank.initialSession (Birbank.amendScenario.take 6))
    20000 12 (by decide) (by decide)).1

/-- C7: the controller leaves PHONE_COLLECTION for PHONE_CONFIRM only once
two independently valid numbers are held; an invalid number re-prompts with
the specific format rule and changes nothing; and two attempts yielding at
most one valid number leave the controller in PHONE_COLLECTION. -/
theorem Birbank.C7_phone_collection :
    (∀ (s : Birbank.CallSession) (i : Birbank.Intent),
      s.phase = .phoneCollection →
      ((Birbank.step s i).1.phase = .phoneConfirm →
        (Birbank.step s i).1.phones.length = 2) ∧
      (∀ r, Birbank.validate r ≠ .valid →
        Birbank.step s (.phoneData r) = (s, .fixed Birbank.invalidPhoneMsg))) ∧
    (∀ (s : Birbank.CallSession) (r1 r2 : String),
      s.phase = .phoneCollection → s.phones = [] →
      ¬(Birbank.validate r1 = .valid ∧ Birbank.validate r2 = .valid) →
      (Birbank.runList s [.phoneData r1, .phoneData r2]).phase =
        .phoneCollection ∧
      (Birbank.runList s [.phoneData r1, .phoneData r2]).phones.length ≤ 1) := by
  constructor
  · intro s i h
    constructor
    · obtain ⟨id, off, fg, bg, sec, sub, ci, di, ph, ver, cv, dc, pa, phase⟩ := s
      have hp : phase = .phoneCollection := h
      subst hp
      cases i <;> simp only [Birbank.step] <;> (repeat' split) <;> simp_all
    · intro r hr
      simp only [Birbank.step, h]
      rw [if_neg hr]
  · intro s r1 r2 h hph hnv
    by_cases hv1 : Birbank.validate r1 = .valid
    · have hv2 : ¬ Birbank.validate r2 = .valid := fun hv2 => hnv ⟨hv1, hv2⟩
      simp only [Birbank.runList, Birbank.step, h, hph]
      rw [if_pos hv1]
      simp only [List.length_nil, List.nil_append]
      rw [if_neg (by norm_num)]
      simp only [Birbank.step]
      rw [if_neg hv2]
      simp
    · simp only [Birbank.runList, Birbank.step, h, hph]
      rw [if_neg hv1]
      by_cases hv2 : Birbank.validate r2 = .valid
      · simp only [Birbank.step, h, hph]
        rw [if_pos hv2]
        simp only [List.length_nil, List.nil_append]
        rw [if_neg (by norm_num)]
        simp
      · simp only [Birbank.step, h, hph]
        rw [if_neg hv2]
        exact ⟨h, by rw [hph]; simp⟩

/-- Witness for C7: one valid and one invalid number over two attempts. -/
theorem Birbank.C7_phone_collection_witness :
    (Birbank.runList (Birbank.runList Birbank.initialSession
        (Birbank.amendScenario.take 9))
        [.phoneData "0501234567", .phoneData "0601234567"]).phase =
      .phoneCollection :=
  (Birbank.C7_phone_collection.2
    (Birbank.runList Birbank.initialSession (Birbank.amendScenario.take 9))
    "0501234567" "0601234567" (by decide) (by decide) (by decide)).1

/-- C8: a post-dispatch amount change goes through re-collection, a
re-confirmation and a second explicit AFFIRM before the amendment takes
effect — inside the amendment sub-flow the offer changes only on the final
AFFIRM of the second gate — and no step of that sub-flow ever re-triggers
dispatch. -/
theorem Birbank.C8_post_dispatch_amend (s : Birbank.CallSession)
    (i : Birbank.Intent) :
    (s.phase = .dispatched →
      (Birbank.step s .correction).1.phase = .amendCollect ∧
      (Birbank.step s .correction).1.offer = s.offer ∧
      (Birbank.step s .correction).1.dispatchCount = s.dispatchCount) ∧
    (s.phase = .amendCollect ∨ s.phase = .amendConfirm1 ∨
        s.phase = .amendConfirm2 →
      (Birbank.step s i).1.dispatchCount = s.dispatchCount ∧
      ((Birbank.step s i).1.offer ≠ s.offer →
        s.phase = .amendConfirm2 ∧ i = .affirm ∧
        (Birbank.step s i).1.offer.amount =
          s.pendingAmount.getD s.offer.amount)) ∧
    (s.phase = .amendCollect → ∀ a, Birbank.offerAdmissible a s.offer.term →
      (Birbank.step s (.amountData a)).1.phase = .amendConfirm1 ∧
      (Birbank.step s (.amountData a)).1.pendingAmount = some a ∧
      (Birbank.step s (.amountData a)).1.offer = s.offer) ∧
    (s.phase = .amendConfirm1 →
      (Birbank.step s .affirm).1.phase = .amendConfirm2 ∧
      (Birbank.step s .affirm).1.offer = s.offer) ∧
    (s.phase = .amendConfirm2 →
      (Birbank.step s .affirm).1.offer.amount =
        s.pendingAmount.getD s.offer.amount ∧
      (Birbank.step s .affirm).1.phase = .closing ∧
      (Birbank.step s .affirm).1.dispatchCount = s.dispatchCount) := by
  obtain ⟨id, ⟨oa, ot⟩, fg, bg, sec, sub, ci, di, ph, ver, cv, dc, pa, phase⟩ := s
  refine ⟨?_, ?_, ?_, ?_, ?_⟩
  · intro h
    have hp : phase = .dispatched := h
    subst hp
    exact ⟨rfl, rfl, rfl⟩
  · intro h
    rcases h with h | h | h <;>
      (have hp := h; simp only at hp; subst hp) <;>
      cases i <;> simp only [Birbank.step] <;> (repeat' split) <;> simp_all
  · intro h a hadm
    have hp : phase = .amendCollect := h
    subst hp
    simp only [Birbank.step]
    rw [if_pos hadm]
    exact ⟨rfl, rfl, rfl⟩
  · intro h
    have hp : phase = .amendConfirm1 := h
    subst hp
    exact ⟨rfl, rfl⟩
  · intro h
    have hp : phase = .amendConfirm2 := h
    subst hp
    exact ⟨rfl, rfl, rfl⟩

/-- Witness for C8 in a concrete post-dispatch amendment flow. -/
theorem Birbank.C8_post_dispatch_amend_witness :
    (Birbank.step (Birbank.runList Birbank.initialSession
      (Birbank.doubleConfirmScenario.take 12 ++ [.correction, .amountData 30000, .affirm]))
      .affirm).1.offer.amount = 30000 := by
  have h := (Birbank.C8_post_dispatch_amend
    (Birbank.runList Birbank.initialSession
      (Birbank.doubleConfirmScenario.take 12 ++ [.correction, .amountData 30000, .affirm]))
    .affirm).2.2.2.2 (by decide)
  rw [h.1]
  decide

namespace Birbank

/-- Phases that precede any dispatch: while the call is in one of these, the
Dispatch Gateway has not yet been invoked. -/
def preDispatch : Phase → Bool
  | .dispatched | .amendCollect | .amendConfirm1 | .amendConfirm2
  | .closing | .callEnded _ => false
  | _ => true

/-- Dispatch-count invariant: never more than one dispatch per call, and none
before the FINAL_CONFIRM gate has been passed. -/
def DispatchInv (s : CallSession) : Prop :=
  s.dispatchCount ≤ 1 ∧ (preDispatch s.phase = true → s.dispatchCount = 0)

/-- One controller turn preserves the dispatch-count invariant. -/
theorem dispatchInv_step (s : CallSession) (i : Intent)
    (h : DispatchInv s) : DispatchInv (step s i).1 := by
  obtain ⟨id, off, fg, bg, sec, sub, ci, di, ph, ver, cv, dc, pa, phase⟩ := s
  obtain ⟨h1, h2⟩ := h
  cases phase <;> cases i <;>
    simp only [DispatchInv, preDispatch, step] at h1 h2 ⊢ <;>
    (repeat' split) <;> simp_all

/-- Whole runs preserve the dispatch-count invariant. -/
theorem dispatchInv_run (l : List Intent) (s : CallSession)
    (h : DispatchInv s) : DispatchInv (runList s l) := by
  induction l generalizing s with
  | nil => exact h
  | cons i rest ih => exact ih (step s i).1 (dispatchInv_step s i h)

end Birbank

/-- C1: the dispatch count changes only on an explicit AFFIRM taken at the
FINAL_CONFIRM gate, recording the offer version confirmed at that moment; on
any run from the initial session the Dispatch Gateway is invoked at most
once; and in the concrete run with two consecutive Bəli confirmations on the
same unchanged offer it is invoked exactly once. -/
theorem Birbank.C1_dispatch_gate :
    (∀ (s : Birbank.CallSession) (i : Birbank.Intent),
      (Birbank.step s i).1.dispatchCount ≠ s.dispatchCount →
      s.phase = .finalConfirm ∧ i = .affirm ∧
      (Birbank.step s i).1.dispatchCount = s.dispatchCount + 1 ∧
      (Birbank.step s i).1.confirmedVersion = some s.offer) ∧
    (∀ l : List Birbank.Intent,
      (Birbank.runList Birbank.initialSession l).dispatchCount ≤ 1) ∧
    ((Birbank.runList Birbank.initialSession
        Birbank.doubleConfirmScenario).dispatchCount = 1 ∧
     (Birbank.runList Birbank.initialSession
        Birbank.doubleConfirmScenario).phase = .closing) := by
  refine ⟨?_, ?_, by decide⟩
  · intro s i h
    obtain ⟨id, off, fg, bg, sec, sub, ci, di, ph, ver, cv, dc, pa, phase⟩ := s
    cases phase <;> cases i <;> simp only [Birbank.step] at h ⊢ <;>
      (repeat' split) <;> simp_all
  · intro l
    exact (Birbank.dispatchInv_run l Birbank.initialSession
      ⟨Nat.zero_le 1, fun _ => rfl⟩).1

/-- Witness for C1 at the concrete FINAL_CONFIRM state of the happy path. -/
theorem Birbank.C1_dispatch_gate_witness :
    (Birbank.step (Birbank.runList Birbank.initialSession Birbank.happyPrefix)
        .affirm).1.dispatchCount ≠
      (Birbank.runList Birbank.initialSession Birbank.happyPrefix).dispatchCount ∧
    (Birbank.runList Birbank.initialSession Birbank.happyPrefix).phase =
      .finalConfirm :=
  ⟨by decide,
   (Birbank.C1_dispatch_gate.1
     (Birbank.runList Birbank.initialSession Birbank.happyPrefix)
     .affirm (by decide)).1⟩

/-- C9: the customer identity and offer parameters are constants embedded in
the script — name, father name, birth date, pre-approved amount 50,000,
maximum term 36 — every call session starts from the same record and the
controller never rewrites the identity, so no per-call identity data enters
from outside. -/
theorem Birbank.C9_fixed_constants :
    (Birbank.initialSession.identity.fullName = "Azər Həsənzadə" ∧
     Birbank.initialSession.identity.fatherName = "Anar" ∧
     Birbank.initialSession.identity.birthDate = "12 iyul 2001" ∧
     Birbank.initialSession.offer.amount = 50000 ∧
     Birbank.initialSession.offer.term = 36) ∧
    ∀ (s : Birbank.CallSession) (i : Birbank.Intent),
      (Birbank.step s i).1.identity = s.identity := by
  refine ⟨⟨rfl, rfl, rfl, rfl, rfl⟩, ?_⟩
  intro s i
  obtain ⟨id, off, fg, bg, sec, sub, ci, di, ph, ver, cv, dc, pa, phase⟩ := s
  cases phase <;> cases i <;> simp only [Birbank.step] <;> (repeat' split) <;> rfl

/-- C6: a DENY at the greeting moves the call directly to
CALL_ENDED(wrong-number): the system says exactly the wrong-number line, and
the identity prompt is never emitted afterwards on that path. -/
theorem Birbank.C6_wrong_number (s : Birbank.CallSession)
    (h : s.phase = .greeting) :
    (Birbank.step s .deny).1.phase = .callEnded .wrongNumber ∧
    (Birbank.step s .deny).2 = .fixed Birbank.wrongNumberMsg ∧
    ∀ l : List Birbank.Intent,
      Birbank.Msg.fixed Birbank.identityPromptMsg ∉
        Birbank.runMsgs (Birbank.step s .deny).1 l := by
  obtain ⟨id, off, fg, bg, sec, sub, ci, di, ph, ver, cv, dc, pa, phase⟩ := s
  have hp : phase = .greeting := h
  subst hp
  refine ⟨rfl, rfl, ?_⟩
  intro l hmem
  have := Birbank.runMsgs_ended _ .wrongNumber rfl l _ hmem
  simp at this

/-- Witness for C6 from the initial greeting state. -/
theorem Birbank.C6_wrong_number_witness :
    (Birbank.step Birbank.initialSession .deny).1.phase = .callEnded .wrongNumber ∧
    Birbank.Msg.fixed Birbank.identityPromptMsg ∉
      Birbank.runMsgs (Birbank.step Birbank.initialSession .deny).1 [.affirm] :=
  ⟨(Birbank.C6_wrong_number Birbank.initialSession rfl).1,
   (Birbank.C6_wrong_number Birbank.initialSession rfl).2.2 [.affirm]⟩

set_option maxRecDepth 8192 in
/-- C2: identity verification compares only once both facts are present —
with a fact still missing the controller stays in IDENTITY_CHALLENGE and
prompts only for the missing fact — and on any mismatch the call ends in
CALL_ENDED(identity-rejected) with the fixed rejection line; moreover no
outward message produced before verification (greeting or challenge phase)
contains the secret values "Anar" or "12 iyul 2001". -/
theorem Birbank.C2_identity_verification :
    (∀ (s : Birbank.CallSession) (f b : Option String),
      s.phase = .identityChallenge →
      (Birbank.mergeFact f s.fatherGiven = none →
        (Birbank.step s (.identityData f b)).1.phase = .identityChallenge ∧
        (Birbank.step s (.identityData f b)).2 = .fixed Birbank.askFatherMsg) ∧
      (∀ fv, Birbank.mergeFact f s.fatherGiven = some fv →
        Birbank.mergeFact b s.birthGiven = none →
        (Birbank.step s (.identityData f b)).1.phase = .identityChallenge ∧
        (Birbank.step s (.identityData f b)).2 = .fixed Birbank.askBirthMsg) ∧
      (∀ fv bv, Birbank.mergeFact f s.fatherGiven = some fv →
        Birbank.mergeFact b s.birthGiven = some bv →
        ¬(fv = s.identity.fatherName ∧ bv = s.identity.birthDate) →
        (Birbank.step s (.identityData f b)).1.phase = .callEnded .identityRejected ∧
        (Birbank.step s (.identityData f b)).2 = .fixed Birbank.identityRejectedMsg)) ∧
    (∀ (s : Birbank.CallSession) (i : Birbank.Intent),
      s.phase = .greeting ∨ s.phase = .identityChallenge →
      Birbank.containsSub (Birbank.render (Birbank.step s i).2) "Anar" = false ∧
      Birbank.containsSub (Birbank.render (Birbank.step s i).2) "12 iyul 2001" = false) := by
  constructor
  · intro s f b h
    refine ⟨?_, ?_, ?_⟩
    · intro hm
      simp only [Birbank.step, h, hm]
      simp
    · intro fv hf hb
      simp only [Birbank.step, h, hf, hb]
      simp
    · intro fv bv hf hb hmm
      simp only [Birbank.step, h, hf, hb]
      rw [if_neg hmm]
      simp
  · intro s i h
    rcases h with h | h <;>
      cases i <;> simp only [Birbank.step, h] <;> (repeat' split) <;>
        exact ⟨rfl, rfl⟩

/-- Witness for C2: father name right, birth date wrong, at the concrete
challenge state reached from the initial greeting. -/
theorem Birbank.C2_identity_verification_witness :
    (Birbank.step (Birbank.step Birbank.initialSession .affirm).1
      (.identityData (some "Anar") (some "13 iyul 2000"))).1.phase =
        .callEnded .identityRejected ∧
    (Birbank.step (Birbank.step Birbank.initialSession .affirm).1
      (.identityData (some "Anar") (some "13 iyul 2000"))).2 =
        .fixed Birbank.identityRejectedMsg ∧
    Birbank.containsSub
      (Birbank.render (Birbank.step (Birbank.step Birbank.initialSession .affirm).1
        (.identityData (some "Anar") (some "13 iyul 2000"))).2) "Anar" = false := by
  have h1 := (Birbank.C2_identity_verification.1
    (Birbank.step Birbank.initialSession .affirm).1
    (some "Anar") (some "13 iyul 2000") rfl).2.2 "Anar" "13 iyul 2000"
    rfl rfl (by decide)
  have h2 := Birbank.C2_identity_verification.2
    (Birbank.step Birbank.initialSession .affirm).1
    (.identityData (some "Anar") (some "13 iyul 2000")) (Or.inr rfl)
  exact ⟨h1.1, h1.2, h2.1⟩


/-- C4: the rate table maps 6,12,24,36 months to 19,21,23,25 percent, fails
with InvalidTerm on every other term, and the 1% commission is deducted from
the disbursed principal rather than added to the repayment (the quoted total
repayment is monthly × term with no commission component). -/
theorem Birbank.C4_rate_table :
    (Birbank.rateFor 6 = .ok 19 ∧ Birbank.rateFor 12 = .ok 21 ∧
     Birbank.rateFor 24 = .ok 23 ∧ Birbank.rateFor 36 = .ok 25) ∧
    (∀ t : Nat, t ∉ Birbank.termOptions →
      Birbank.rateFor t = .error .invalidTerm) ∧
    Birbank.commissionRatePct = 1 ∧
    (∀ p : Nat, Birbank.commissionFee p = p * 1 / 100 ∧
      Birbank.disbursedAmount p = p - Birbank.commissionFee p) ∧
    Birbank.estTotalRepayment =
      Birbank.estMonthlyPayment * 36 + 0 * Birbank.commissionFee 50000 := by
  refine ⟨⟨rfl, rfl, rfl, rfl⟩, ?_, rfl, fun p => ⟨rfl, rfl⟩, by decide⟩
  intro t ht
  simp only [Birbank.termOptions, List.mem_cons, List.not_mem_nil] at ht
  push_neg at ht
  obtain ⟨h6, h12, h24, h36, -⟩ := ht
  simp [Birbank.rateFor, h6, h12, h24, h36]

/-- Witness for C4 at the concrete invalid term 18. -/
theorem Birbank.C4_rate_table_witness :
    Birbank.rateFor 18 = .error .invalidTerm :=
  Birbank.C4_rate_table.2.1 18 (by decide)

/-- C5: `validate p` is Valid iff `p` consists of exactly 10 digits and its
first three digits are in the whitelist {050,055,010,070,077,099}; the
validator is a pure function of the single number it is given. -/
theorem Birbank.C5_phone_validator (p : String) :
    Birbank.validate p = .valid ↔
      (p.toList.length = 10 ∧ (∀ c ∈ p.toList, c.isDigit) ∧
        String.mk (p.toList.take 3) ∈ Birbank.phoneWhitelist) := by
  unfold Birbank.validate
  constructor
  · intro h
    by_cases h1 : p.toList.length = 10 ∧ p.toList.all Char.isDigit
    · rw [if_pos h1] at h
      by_cases h2 : String.mk (p.toList.take 3) ∈ Birbank.phoneWhitelist
      · exact ⟨h1.1, List.all_eq_true.mp h1.2, h2⟩
      · rw [if_neg h2] at h
        exact absurd h (by simp)
    · rw [if_neg h1] at h
      exact absurd h (by simp)
  · rintro ⟨hlen, hdig, hpre⟩
    rw [if_pos ⟨hlen, List.all_eq_true.mpr hdig⟩, if_pos hpre]

/-- Witness for C5 at the concrete number 0501234567. -/
theorem Birbank.C5_phone_validator_witness :
    Birbank.validate "0501234567" = .valid :=
  (Birbank.C5_phone_validator "0501234567").mpr (by decide)

/-- C10: the illustrative estimator for the (50,000 manat, 36 months, 25%)
offer quotes a monthly payment of 1,800 manat and a total repayment of
64,800 manat, and the total is exactly monthly × term. -/
theorem Birbank.C10_payment_estimator :
    Birbank.estMonthlyPayment = 1800 ∧ Birbank.estTotalRepayment = 64800 ∧
    Birbank.estTotalRepayment = Birbank.estMonthlyPayment * 36 ∧
    Birbank.rateD 36 = 25 := by
  decide
